import Mathlib

/-!
Verification development for the universal swap aggregation gateway.

The definitions below are a shallow embedding of the TypeScript source.
Pure functions become Lean functions.  JavaScript `number` arithmetic is
modelled by exact rationals rounded to the nearest IEEE-754 binary64
value (round-to-nearest, ties to even); the model covers the normal
finite range, which every value appearing in the claims inhabits, and
collapses `NaN` and the non-finite values into the `none` of an
`Option`.  Hex byte strings are modelled by their byte sequences.
Fallible code returns `Except`.  External I/O (HTTP quote fan-out, RPC
reads, signing) is passed in as explicit environment data.
-/

namespace SwapAgg

/-! ## JavaScript string primitives

`String.toLower`, `parseFloat` and decimal parsing are re-implemented
over character lists so that every definition evaluates inside the
kernel.  `lowerStr` agrees with `toLowerCase` on the ASCII identifiers
and addresses the system handles. -/

/-- JavaScript `toLowerCase`, character by character. -/
def lowerStr (s : String) : String := ⟨s.data.map Char.toLower⟩

/-- The numeric value of a decimal digit character, if it is one. -/
def decDigit? (c : Char) : Option ℕ :=
  if '0' ≤ c ∧ c ≤ '9' then some (c.toNat - '0'.toNat) else none

/-- Parse a base-10 unsigned decimal integer string; `none` on anything
else.  This is the common semantics of `String#toNat?`, `BigInt(s)` and
`Number(s)` on the decimal amount strings the system carries
(spec §4.A). -/
def strToNat? (s : String) : Option ℕ :=
  if s.data.isEmpty then none
  else s.data.foldl (fun acc c =>
    match acc, decDigit? c with
    | some a, some d => some (a * 10 + d)
    | _, _ => none) (some 0)

/-! ## JavaScript number model -/

/-- Floor of `log2 (a / b)` for a positive rational `a / b`, returned as
the pair `(ep, em)` with the floor equal to `ep - em` and at least one
component zero. -/
def ratFlog2n (a b : ℕ) : ℕ × ℕ :=
  let la := Nat.log2 a
  let lb := Nat.log2 b
  if lb ≤ la then
    (if 2 ^ (la - lb) * b ≤ a then (la - lb, 0)
     else if la - lb = 0 then (0, 1) else (la - lb - 1, 0))
  else
    (if b ≤ 2 ^ (lb - la) * a then (0, lb - la) else (0, lb - la + 1))

/-- Round the positive rational `a / b` to the nearest binary64 value
(53 significant bits, ties to even), returned as an exact rational.
The value is scaled into `[2 ^ 52, 2 ^ 53)` by a power of two, rounded
to an integer, and scaled back. -/
def roundPosNat (a b : ℕ) : ℚ :=
  let ep := (ratFlog2n a b).1
  let em := (ratFlog2n a b).2
  let sr := ep - (em + 52)
  let sl := (em + 52) - ep
  let num := a * 2 ^ sl
  let den := b * 2 ^ sr
  let m := num / den
  let m' := if den < 2 * (num % den) then m + 1
            else if 2 * (num % den) < den then m
            else if m % 2 = 0 then m else m + 1
  ((m' : ℕ) : ℚ) * ((2 ^ sr : ℕ) : ℚ) / ((2 ^ sl : ℕ) : ℚ)

/-- Round a positive rational to the nearest binary64 value. -/
def roundPos (q : ℚ) : ℚ := roundPosNat q.num.toNat q.den

/-- Round any rational to the nearest binary64 value.  This is the value
a JavaScript `number` holds after an arithmetic operation whose exact
result is `q` (normal finite range). -/
def roundQ (q : ℚ) : ℚ :=
  if q = 0 then 0 else if q < 0 then -(roundPos (-q)) else roundPos q

/-- JavaScript `parseFloat`, restricted to the base-10 unsigned decimal
integer strings the system carries for amounts.  Any other string is
mapped to `none` (NaN). -/
def jsParseFloat (s : String) : Option ℚ :=
  match strToNat? s with
  | some n => some (roundQ ((n : ℕ) : ℚ))
  | none => none

/-- JavaScript `>` on numbers: any comparison involving NaN is false. -/
def jsGtB (a b : Option ℚ) : Bool :=
  match a, b with
  | some x, some y => decide (y < x)
  | _, _ => false

/-- JavaScript `<` on numbers: any comparison involving NaN is false. -/
def jsLtB (a b : Option ℚ) : Bool :=
  match a, b with
  | some x, some y => decide (x < y)
  | _, _ => false

/-- JavaScript subtraction with binary64 rounding. -/
def jsSub (a b : Option ℚ) : Option ℚ :=
  match a, b with
  | some x, some y => some (roundQ (x - y))
  | _, _ => none

/-- JavaScript division with binary64 rounding; a zero divisor yields a
non-finite value, collapsed to `none`. -/
def jsDiv (a b : Option ℚ) : Option ℚ :=
  match a, b with
  | some x, some y => if y = 0 then none else some (roundQ (x / y))
  | _, _ => none

/-- JavaScript multiplication with binary64 rounding. -/
def jsMul (a b : Option ℚ) : Option ℚ :=
  match a, b with
  | some x, some y => some (roundQ (x * y))
  | _, _ => none

/-- ECMA-262 `Number.prototype.toFixed(2)` on the exact rational value
of a double: strip the sign, pick the integer `n` minimising
`|n / 100 - x|` (ties towards the larger `n`), render with two decimals.
Non-finite inputs render as a non-numeric string. -/
def jsToFixed2 (a : Option ℚ) : String :=
  match a with
  | none => "NaN"
  | some q =>
    let sign := if q < 0 then "-" else ""
    let n : ℕ := (⌊|q| * 100 + 1/2⌋).toNat
    sign ++ toString (n / 100) ++ "." ++
      (if n % 100 < 10 then "0" else "") ++ toString (n % 100)

/-! ### Basic facts about the rounding model -/

theorem roundQ_zero : roundQ 0 = 0 := by simp [roundQ]

theorem roundQ_natCast_pos (n : ℕ) (h : 0 < n) :
    roundQ ((n : ℕ) : ℚ) = roundPosNat n 1 := by
  have hne : ((n : ℚ)) ≠ 0 := by positivity
  have hnlt : ¬ ((n : ℚ) < 0) := not_lt.mpr (by positivity)
  rw [roundQ, if_neg hne, if_neg hnlt, roundPos]
  norm_num

theorem roundPosNat_id (n : ℕ) (h : 0 < n) (hn : n < 2 ^ 53) :
    roundPosNat n 1 = n := by
  have hne : n ≠ 0 := Nat.pos_iff_ne_zero.mp h
  have hlow : 2 ^ Nat.log2 n ≤ n := Nat.log2_self_le hne
  have hlog : Nat.log2 n < 53 := (Nat.log2_lt hne).mpr hn
  have h1 : Nat.log2 1 = 0 := by simp [Nat.log2]
  have hflog : ratFlog2n n 1 = (Nat.log2 n, 0) := by
    rw [ratFlog2n]
    simp only [h1]
    rw [if_pos (Nat.zero_le _), if_pos (by simpa using hlow)]
    rw [Nat.sub_zero]
  rw [roundPosNat]
  simp only [hflog]
  have hsr : Nat.log2 n - (0 + 52) = 0 := by omega
  have hsl : (0 + 52) - Nat.log2 n = 52 - Nat.log2 n := by omega
  rw [hsr, hsl]
  simp only [pow_zero, mul_one, one_mul, Nat.div_one, Nat.mod_one]
  norm_num

/-- Naturals below `2 ^ 53` are exactly representable in binary64, so
rounding is the identity on them. -/
theorem roundQ_natCast (n : ℕ) (hn : n < 2 ^ 53) : roundQ ((n : ℕ) : ℚ) = n := by
  rcases Nat.eq_zero_or_pos n with h0 | hpos
  · subst h0; simp [roundQ]
  · rw [roundQ_natCast_pos n hpos, roundPosNat_id n hpos hn]

/-- Source `parseFloat` on a decimal string with value below `2 ^ 53` is exact. -/
theorem jsParseFloat_exact (s : String) (n : ℕ) (hs : strToNat? s = some n)
    (hn : n < 2 ^ 53) : jsParseFloat s = some ((n : ℕ) : ℚ) := by
  simp only [jsParseFloat, hs]
  rw [roundQ_natCast n hn]

/-! ## Byte-level splice (Permit2 workflow)

`viem`'s `size`, `numberToHex (size := 32)` and `concat` act on the byte
sequences underlying `0x…` hex strings; hex payloads are therefore
modelled as lists of bytes. -/

/-- Big-endian unsigned encoding of `n` in exactly `w` bytes
(the value is truncated to `w` bytes; callers guard the range). -/
def beBytes : ℕ → ℕ → List ℕ
  | 0, _ => []
  | w + 1, n => (n / 256 ^ w) % 256 :: beBytes w n

/-- Decode a big-endian unsigned byte sequence. -/
def beDecode (l : List ℕ) : ℕ := l.foldl (fun acc b => acc * 256 + b) 0

/-- Source `appendSignatureToTxData` (Permit2Service): concatenate the
transaction payload, the 32-byte big-endian byte length of the
signature (`numberToHex(size(signature), 32)`, which fails above
`2 ^ 256`), and the signature itself. -/
def appendSignatureToTxData (transactionData signature : List ℕ) :
    Except String (List ℕ) :=
  if signature.length < 2 ^ 256 then
    .ok (transactionData ++ beBytes 32 signature.length ++ signature)
  else
    .error ("Signature concatenation failed: IntegerOutOfRangeError")

theorem beBytes_length (w n : ℕ) : (beBytes w n).length = w := by
  induction w generalizing n with
  | zero => rfl
  | succ w ih => simp [beBytes, ih]

theorem beDecode_aux (w : ℕ) : ∀ (n acc : ℕ),
    (beBytes w n).foldl (fun acc b => acc * 256 + b) acc =
      acc * 256 ^ w + n % 256 ^ w := by
  induction w with
  | zero => intro n acc; simp [beBytes, Nat.mod_one]
  | succ w ih =>
    intro n acc
    rw [beBytes, List.foldl_cons, ih]
    have h256 : (0:ℕ) < 256 ^ w := by positivity
    have hmod : n % 256 ^ (w + 1) = 256 ^ w * (n / 256 ^ w % 256) + n % 256 ^ w := by
      rw [Nat.pow_succ]
      rw [Nat.mod_mul]
      ring_nf
    rw [hmod]
    ring_nf

theorem beDecode_beBytes (w n : ℕ) (h : n < 256 ^ w) :
    beDecode (beBytes w n) = n := by
  rw [beDecode, beDecode_aux w n 0, Nat.zero_mul, Nat.zero_add, Nat.mod_eq_of_lt h]

/-! ## Domain model (swap-request.model) -/

/-- Legacy aggregator identifiers (`AggregatorType`): `'0x'` and `'odos'`. -/
inductive AggregatorType where
  | ZEROX
  | ODOS
deriving DecidableEq

/-- Source `ApprovalStrategy`: allowance-holder or permit2. -/
inductive ApprovalStrategy where
  | allowanceHolder
  | permit2
deriving DecidableEq

/-- EIP-712 bundle attached by an aggregator (`Permit2Data`); `types`,
`domain` and `message` are opaque upstream blobs, kept as rendered
strings, with the message key list kept for `getPermit2Info`. -/
structure Permit2Data where
  type : String
  hash : String
  eip712Types : String
  eip712Domain : String
  eip712Message : String
  eip712MessageKeys : List String
  eip712PrimaryType : String
deriving DecidableEq

/-- Legacy `SwapQuote`. -/
structure SwapQuote where
  sellToken : String := ""
  buyToken : String := ""
  sellAmount : String := ""
  buyAmount : String := ""
  minBuyAmount : String := ""
  gas : String := ""
  gasPrice : Option String := none
  toAddr : String := ""
  data : String := ""
  value : String := ""
  allowanceTarget : Option String := none
  aggregator : AggregatorType := .ZEROX
  priceImpact : Option String := none
  estimatedGas : Option String := none
  permit2 : Option Permit2Data := none
  approvalStrategy : Option ApprovalStrategy := none
  maxFeePerGas : Option String := none
  maxPriorityFeePerGas : Option String := none
deriving DecidableEq

/-- Legacy `SwapRequest`. -/
structure SwapRequest where
  chainId : ℕ := 1
  sellToken : String := ""
  buyToken : String := ""
  sellAmount : String := ""
  taker : String := ""
  recipient : Option String := none
  slippagePercentage : Option ℚ := none
  deadline : Option ℕ := none
  aggregator : Option AggregatorType := none
  approvalStrategy : Option ApprovalStrategy := none
deriving DecidableEq

/-- One entry of a `getMultipleQuotes` result: `{aggregator, quote}`. -/
structure AggregatorQuote where
  aggregator : AggregatorType
  quote : SwapQuote
deriving DecidableEq

/-- Provider health status values. -/
inductive HealthStatus where
  | healthy
  | degraded
  | unhealthy
deriving DecidableEq

/-- Source `ProviderHealth` snapshot used for scoring. -/
structure ProviderHealth where
  name : String := ""
  status : HealthStatus := .healthy
  latency : Option ℚ := none
  lastCheck : ℕ := 0
  errorRate : Option ℚ := none

/-! ## Best-quote selection and comparison (AggregatorManagerService)

`getBestQuote` and `compareQuotes` first gather quotes through the
`getMultipleQuotes` fan-out (I/O); the selection below is applied to the
gathered list.  The source compares `buyAmount` strings through
`parseFloat`, i.e. after binary64 rounding. -/

/-- The reducer of `getBestQuote` and `compareQuotes`:
`currentBuyAmount > bestBuyAmount ? current : best` with
`parseFloat` comparison. -/
def pickBetter (best current : AggregatorQuote) : AggregatorQuote :=
  if jsGtB (jsParseFloat current.quote.buyAmount) (jsParseFloat best.quote.buyAmount)
  then current else best

/-- The reducer of the worst-quote fold in `compareQuotes`. -/
def pickWorse (worst current : AggregatorQuote) : AggregatorQuote :=
  if jsLtB (jsParseFloat current.quote.buyAmount) (jsParseFloat worst.quote.buyAmount)
  then current else worst

/-- Source `getBestQuote`, applied to the quotes gathered by the fan-out:
`reduce` keeps the first quote whose parsed `buyAmount` is not strictly
exceeded later. -/
def getBestQuote (qs : List AggregatorQuote) : Option AggregatorQuote :=
  match qs with
  | [] => none
  | q :: rest => some (rest.foldl pickBetter q)

/-- Result shape of `compareQuotes`. -/
structure CompareResult where
  quotes : List AggregatorQuote
  bestAggregator : AggregatorType
  priceDifference : String
deriving DecidableEq

/-- Source `compareQuotes`, applied to the quotes gathered by the fan-out:
pick best and worst by `parseFloat` comparison and render
`((best - worst) / worst * 100).toFixed(2)` with a `%` suffix. -/
def compareQuotes (qs : List AggregatorQuote) : Except String CompareResult :=
  match qs with
  | [] => .error ("No quotes available for comparison")
  | q :: rest =>
    let bestQuote := rest.foldl pickBetter q
    let worstQuote := rest.foldl pickWorse q
    let bestAmount := jsParseFloat bestQuote.quote.buyAmount
    let worstAmount := jsParseFloat worstQuote.quote.buyAmount
    let priceDifference :=
      jsToFixed2 (jsMul (jsDiv (jsSub bestAmount worstAmount) worstAmount) (some 100))
    .ok ⟨qs, bestQuote.aggregator, priceDifference ++ "%"⟩

/-! ## Provider scoring (AggregatorManagerService.calculateProviderScore) -/

/-- Source `calculateProviderScore`: base 100; when healthy, +50, plus a
latency bonus when a nonzero latency is cached, minus the error-rate
penalty when an error rate is cached; when not healthy, −100; then the
provider-specific nudges; clamped to be non-negative. -/
def calculateProviderScore (health : ProviderHealth) (providerName : String)
    (request : SwapRequest) : ℚ :=
  let s0 : ℚ := 100
  let s1 : ℚ :=
    if health.status = .healthy then
      let withBonus := s0 + 50 +
        (match health.latency with
         | some l => if l ≠ 0 then max 0 (100 - l) else 0
         | none => 0)
      withBonus -
        (match health.errorRate with
         | some e => e * 100
         | none => 0)
    else s0 - 100
  let pn := lowerStr providerName
  let s2 : ℚ :=
    if request.chainId = 1 then (if pn = "0x" then s1 + 20 else s1)
    else if request.chainId = 137 then (if pn = "odos" then s1 + 15 else s1)
    else s1
  let s3 : ℚ :=
    if request.sellAmount ≠ "" then
      (if jsGtB (jsParseFloat request.sellAmount) (some ((10 : ℚ) ^ 21)) ∧ pn = "0x"
       then s2 + 10 else s2)
    else s2
  let s4 : ℚ :=
    if request.approvalStrategy = some .permit2 ∧ pn = "0x" then s3 + 25 else s3
  max 0 s4

/-! ## Provider registry (AggregatorManagerService self-registration)

JavaScript `Map`s are modelled as insertion-ordered association lists;
`Map.set` overwrites in place for an existing key and appends new keys. -/

/-- Source `Map.set`. -/
def alSet {K V : Type} [DecidableEq K] (k : K) (v : V)
    (l : List (K × V)) : List (K × V) :=
  if (l.lookup k).isSome then
    l.map (fun kv => if kv.1 = k then (k, v) else kv)
  else l ++ [(k, v)]

/-- Registry state of `AggregatorManagerService`, generic over the
provider object type `P`. -/
structure RegState (P : Type) where
  aggregators : List (AggregatorType × P) := []
  evmAggregators : List (String × P) := []
  metaAggregators : List (String × P) := []
  solanaRouters : List (String × P) := []
  nativeRouters : List (String × P) := []
  registrationComplete : Bool := false

/-- Source `registerInLegacyMap`: mirror a provider named `0x` or `odos`
(case-insensitively) into the legacy map. -/
def registerInLegacyMap {P : Type} (name : String) (p : P) (s : RegState P) :
    RegState P :=
  let lowerName := lowerStr name
  if lowerName = "0x" then
    { s with aggregators := alSet AggregatorType.ZEROX p s.aggregators }
  else if lowerName = "odos" then
    { s with aggregators := alSet AggregatorType.ODOS p s.aggregators }
  else s

/-- Source `registerEvmAggregator`: skip when the provider name is already
registered; otherwise insert and mirror into the legacy map.
`getName` stands for `provider.getProviderName()`. -/
def registerEvmAggregator {P : Type} (getName : P → String) (p : P)
    (s : RegState P) : RegState P :=
  let name := getName p
  if (s.evmAggregators.lookup name).isSome then s
  else registerInLegacyMap name p
    { s with evmAggregators := s.evmAggregators ++ [(name, p)] }

/-- Source `registerMetaAggregator`: skip when the provider name is
already registered; otherwise insert. -/
def registerMetaAggregator {P : Type} (getName : P → String) (p : P)
    (s : RegState P) : RegState P :=
  let name := getName p
  if (s.metaAggregators.lookup name).isSome then s
  else { s with metaAggregators := s.metaAggregators ++ [(name, p)] }

/-- Source `registerSolanaRouter`: skip when the provider name is
already registered; otherwise insert. -/
def registerSolanaRouter {P : Type} (getName : P → String) (p : P)
    (s : RegState P) : RegState P :=
  let name := getName p
  if (s.solanaRouters.lookup name).isSome then s
  else { s with solanaRouters := s.solanaRouters ++ [(name, p)] }

/-- Source `registerNativeRouter`: skip when the provider name is
already registered; otherwise insert. -/
def registerNativeRouter {P : Type} (getName : P → String) (p : P)
    (s : RegState P) : RegState P :=
  let name := getName p
  if (s.nativeRouters.lookup name).isSome then s
  else { s with nativeRouters := s.nativeRouters ++ [(name, p)] }

/-! ## Routing classifier (universal-swap-request.dto / SwapRoutingService) -/

/-- Source `BlockchainEcosystem`. -/
inductive BlockchainEcosystem where
  | evm
  | solana
  | cosmos
  | bitcoin
  | substrate
  | near
  | terra
  | avalanche
  | thorchain
  | maya
deriving DecidableEq

/-- Source `SwapType`. -/
inductive SwapType where
  | onChain
  | crossChain
  | l1ToL2
  | l2ToL1
  | l2ToL2
  | nativeSwap
deriving DecidableEq

/-- Source `TokenStandard`. -/
inductive TokenStandard where
  | native
  | erc20
  | spl
  | bep20
  | cosmosNative
  | rune
  | cacao
deriving DecidableEq

/-- A `chainId` value: EVM chains use numbers, others may use string
identifiers.  JavaScript `===` on these values is structural equality. -/
inductive ChainIdVal where
  | num (n : ℕ)
  | str (s : String)
deriving DecidableEq

/-- Source `ChainInfo`: an optional chain id plus the ecosystem. -/
structure ChainInfo where
  chainId : Option ChainIdVal := none
  ecosystem : BlockchainEcosystem := .evm
  network : Option String := none
deriving DecidableEq

/-- Source `TokenInfo`. -/
structure TokenInfo where
  address : String := ""
  standard : TokenStandard := .erc20
  symbol : Option String := none
  decimals : Option ℕ := none
  chain : ChainInfo := {}
deriving DecidableEq

/-- Source `UniversalSwapRequestDto` (the fields the classifier and pre-check
read). -/
structure UniversalSwapRequest where
  sellToken : TokenInfo := {}
  buyToken : TokenInfo := {}
  sellAmount : String := ""
  taker : String := ""
  recipient : Option String := none
  slippageToleranceBps : Option ℕ := none
  swapType : Option SwapType := none
  deadline : Option ℕ := none
  preferredProvider : Option String := none
deriving DecidableEq

/-- Replace the `swapType` override of a request. -/
def withSwapType (req : UniversalSwapRequest) (st : Option SwapType) :
    UniversalSwapRequest :=
  { req with swapType := st }

/-- Render an ecosystem the way the enum string appears in error
messages. -/
def ecosystemStr (e : BlockchainEcosystem) : String :=
  match e with
  | .evm => "evm"
  | .solana => "solana"
  | .cosmos => "cosmos"
  | .bitcoin => "bitcoin"
  | .substrate => "substrate"
  | .near => "near"
  | .terra => "terra"
  | .avalanche => "avalanche"
  | .thorchain => "thorchain"
  | .maya => "maya"

/-- Source `isNativeL1Swap`: either side lives in a native-L1 ecosystem. -/
def isNativeL1Swap (sellEco buyEco : BlockchainEcosystem) : Bool :=
  let nativeL1 : List BlockchainEcosystem := [.bitcoin, .thorchain, .maya, .cosmos]
  nativeL1.contains sellEco || nativeL1.contains buyEco

/-- Source `determineEvmSwapType`: the L1/L2 table.  A missing or non-numeric
chain id is never in either table (the TS `as number` cast does not
convert). -/
def determineEvmSwapType (sellChainId buyChainId : Option ChainIdVal) : SwapType :=
  let isL1 : Option ChainIdVal → Bool := fun c =>
    match c with
    | some (.num n) => [1, 56, 137].contains n
    | _ => false
  let isL2 : Option ChainIdVal → Bool := fun c =>
    match c with
    | some (.num n) => [10, 42161, 8453, 324].contains n
    | _ => false
  if isL1 sellChainId && isL2 buyChainId then .l1ToL2
  else if isL2 sellChainId && isL1 buyChainId then .l2ToL1
  else if isL2 sellChainId && isL2 buyChainId then .l2ToL2
  else .crossChain

/-- The branch logic of `determineSwapType` after the override check
(it never reads `swapType`). -/
def deriveSwapType (req : UniversalSwapRequest) : Except String SwapType :=
  let sellChain := req.sellToken.chain
  let buyChain := req.buyToken.chain
  if sellChain.ecosystem = buyChain.ecosystem ∧ sellChain.chainId = buyChain.chainId then
    .ok .onChain
  else if sellChain.ecosystem ≠ buyChain.ecosystem then
    (if isNativeL1Swap sellChain.ecosystem buyChain.ecosystem then .ok .nativeSwap
     else .ok .crossChain)
  else if sellChain.ecosystem = buyChain.ecosystem ∧ sellChain.chainId ≠ buyChain.chainId then
    (if sellChain.ecosystem = .evm then
       .ok (determineEvmSwapType sellChain.chainId buyChain.chainId)
     else .ok .crossChain)
  else .error ("Unable to determine swap type from request")

/-- Source `determineSwapType`: an explicit `swapType` is kept when it matches
the type derived with the override removed (`validateSwapType`);
otherwise the branch logic re-derives. -/
def determineSwapType (req : UniversalSwapRequest) : Except String SwapType :=
  match req.swapType with
  | some st =>
    (match deriveSwapType (withSwapType req none) with
     | .error e => .error e
     | .ok detected => if detected = st then .ok st else deriveSwapType req)
  | none => deriveSwapType req

/-- Provider categories used by `SwapRoutingService`. -/
inductive ProviderCategory where
  | evmAggregators
  | meta
  | nativeL1
  | solana
deriving DecidableEq

/-- Source `getOnChainProviderCategory`. -/
def getOnChainProviderCategory (req : UniversalSwapRequest) :
    Except String ProviderCategory :=
  match req.sellToken.chain.ecosystem with
  | .evm => .ok .evmAggregators
  | .avalanche => .ok .evmAggregators
  | .solana => .ok .solana
  | e => .error ("On-chain swaps not supported for ecosystem: " ++ ecosystemStr e)

/-- Source `determineProviderCategory`. -/
def determineProviderCategory (swapType : SwapType) (req : UniversalSwapRequest) :
    Except String ProviderCategory :=
  match swapType with
  | .onChain => getOnChainProviderCategory req
  | .crossChain => .ok .meta
  | .l1ToL2 => .ok .meta
  | .l2ToL1 => .ok .meta
  | .l2ToL2 => .ok .meta
  | .nativeSwap => .ok .nativeL1

/-! ## Chain compatibility (SwapRoutingService) -/

/-- A registered provider instance as seen by the routing fallback:
only its `supportsChain` matters.  Its argument is `Number(chainId)`,
which is `none` when the conversion yields NaN. -/
structure RoutingProvider where
  supportsChain : Option ℕ → Bool

/-- JavaScript truthiness of a `chainId` value (`!chain.chainId`). -/
def chainIdTruthy : ChainIdVal → Bool
  | .num n => n ≠ 0
  | .str s => s ≠ ""

/-- Source `Number(chainId)` restricted to the values reaching it (a truthy
number or string); a non-decimal string gives NaN (`none`). -/
def toNumber : ChainIdVal → Option ℕ
  | .num n => some n
  | .str s => strToNat? s

/-- One entry of the supported-quote cache
(`SwapCacheService.supportedChainsTokens`). -/
structure CacheEntry where
  buyTokens : List String := []
  sellTokens : List String := []
deriving DecidableEq

/-- The supported-quote cache, keyed by chain id. -/
def SwapCache : Type := List (ℕ × CacheEntry)

/-- Source `SwapRoutingService.isChainSupported`: falsy chain ids fail; with a
non-empty provider registry the chain must be claimed by some
provider's `supportsChain`; with an empty registry the check passes to
allow bootstrapping.  The supported-quote cache is mentioned in a
comment but never consulted. -/
def isChainSupportedReg (registry : List RoutingProvider) (chain : ChainInfo) : Bool :=
  match chain.chainId with
  | none => false
  | some v =>
    if ¬ chainIdTruthy v then false
    else if ¬ registry.isEmpty then
      registry.any (fun p => p.supportsChain (toNumber v))
    else true

/-- The ecosystems `isSupportedEcosystem` accepts. -/
def isSupportedEcosystem (e : BlockchainEcosystem) : Bool :=
  ([.evm, .solana, .cosmos, .bitcoin, .thorchain, .maya] :
    List BlockchainEcosystem).contains e

/-- Source `validateChainCompatibility`: both ecosystems supported and both
chains supported. -/
def validateChainCompatibility (registry : List RoutingProvider)
    (req : UniversalSwapRequest) : Bool :=
  if ¬ (isSupportedEcosystem req.sellToken.chain.ecosystem
        && isSupportedEcosystem req.buyToken.chain.ecosystem) then false
  else isChainSupportedReg registry req.sellToken.chain
       && isChainSupportedReg registry req.buyToken.chain

/-! ## Approval service (ApprovalService.getApprovalStatus) -/

/-- Chains with a known Permit2 deployment (`permit2Addresses`). -/
def permit2Chains : List ℤ := [1, 137, 56, 42161, 10, 8453, 43114]

/-- Source `isPermit2Supported`. -/
def isPermit2Supported (chainId : ℤ) : Bool := permit2Chains.contains chainId

/-- The canonical Permit2 contract address. -/
def permit2Address : String := "0x000000000022D473030F116dDEE9F6B43aC78BA3"

/-- Source `isNativeToken` (chain.utils): the all-zero sentinel,
case-insensitively. -/
def isNativeToken (tokenAddress : String) : Bool :=
  lowerStr tokenAddress = "0x0000000000000000000000000000000000000000"

/-- Result shape of `getApprovalStatus`; `tokenInfo` is an opaque
payload from the wallet service (`null` for native tokens). -/
structure ApprovalStatusRes where
  currentAllowance : String
  isApprovalNeeded : Bool
  tokenInfo : Option String
  isPermit2Compatible : Bool
  permit2Address : Option String
deriving DecidableEq

/-- The I/O surrounding `getApprovalStatus`: address validation
(viem `isAddress`), the ERC-20 allowance read, the token-info read and
the Permit2 compatibility probe. -/
structure ApprovalEnv where
  isAddr : String → Bool
  getAllowance : Except String String
  getTokenInfo : Except String String
  isTokenPermit2Compatible : Except String Bool

/-- Source `getApprovalStatus`: validate inputs, short-circuit native tokens,
read the allowance, record Permit2 compatibility (failures there only
warn), then decide `isApprovalNeeded` — against the requested amount
when a truthy one is given, otherwise as `allowance == 0`.
Exceptions of any kind are collapsed into `Except.error` with the
rethrown message. -/
def getApprovalStatus (chainId : ℤ) (tokenAddress owner spender : String)
    (amount : Option String) (env : ApprovalEnv) :
    Except String ApprovalStatusRes :=
  if chainId ≤ 0 then .error ("Invalid chain ID")
  else if tokenAddress = "" then .error ("Token address is required")
  else if ¬ env.isAddr tokenAddress then .error ("Invalid token address format")
  else if owner = "" then .error ("Wallet address is required")
  else if ¬ env.isAddr owner then .error ("Invalid wallet address format")
  else if spender = "" then .error ("Wallet address is required")
  else if ¬ env.isAddr spender then .error ("Invalid wallet address format")
  else if isNativeToken tokenAddress then
    .ok ⟨"0", false, none, false, none⟩
  else
    match env.getAllowance, env.getTokenInfo with
    | .error e, _ => .error ("Failed to get approval status: " ++ e)
    | _, .error e => .error ("Failed to get approval status: " ++ e)
    | .ok currentAllowance, .ok tokenInfo =>
      let p2 : Bool × Option String :=
        if isPermit2Supported chainId then
          match env.isTokenPermit2Compatible with
          | .ok true => (true, some permit2Address)
          | .ok false => (false, none)
          | .error _ => (false, none)
        else (false, none)
      let amountTruthy : Option String :=
        match amount with
        | some a => if a = "" then none else some a
        | none => none
      match amountTruthy with
      | some a =>
        (match strToNat? currentAllowance, strToNat? a with
         | some al, some required =>
           .ok ⟨currentAllowance, decide (al < required), some tokenInfo, p2.1, p2.2⟩
         | _, _ => .error ("Failed to get approval status: Cannot convert to a BigInt"))
      | none =>
        (match strToNat? currentAllowance with
         | some al =>
           .ok ⟨currentAllowance, decide (al = 0), some tokenInfo, p2.1, p2.2⟩
         | none => .error ("Failed to get approval status: Cannot convert to a BigInt"))

/-! ## Universal pre-check (UniversalSwapController.universalPreCheck)

The five probes run in sequence inside separate try/catch blocks; each
probe's external calls are supplied through `PreCheckEnv`, and a thrown
error is the corresponding `Except.error`.  The `details` log map and
the supported-quote cache side effect of a successful liquidity probe
are not part of the returned outcome and are not modelled. -/

/-- External inputs of one `universalPreCheck` run. -/
structure PreCheckEnv where
  registry : List RoutingProvider := []
  getMultipleQuotes : Except String (List AggregatorQuote) := .ok []
  getSpenderForSwap : Except String String := .ok ""
  approvalStatusNeeded : Except String Bool := .ok false
  balance : Except String String := .ok "0"
  providersHealthEvm : Except String (List HealthStatus) := .ok []

/-- Outcome of `universalPreCheck`: the five probe outcomes (`none` is
the JavaScript `null` of a skipped probe) and the accumulated warnings. -/
structure PreCheckResult where
  parametersValid : Option Bool
  liquidityAvailable : Option Bool
  approvalRequired : Option Bool
  sufficientBalance : Option Bool
  providerHealthy : Option Bool
  warnings : List String
deriving DecidableEq

/-- Probe 1: parameter validation via `validateChainCompatibility`
(pure, so its catch block is unreachable). -/
def probeParameters (req : UniversalSwapRequest)
    (registry : List RoutingProvider) : Option Bool × List String :=
  let v := validateChainCompatibility registry req
  (some v, if v then [] else ["Unsupported chain combination for swap"])

/-- Probe 2: liquidity.  For the EVM-aggregator category the fan-out
result decides: non-empty and `parseFloat(quotes[0].quote.buyAmount) > 0`.
Other categories are stubbed `true`; any throw records `false`. -/
def probeLiquidity (req : UniversalSwapRequest)
    (gmq : Except String (List AggregatorQuote)) : Option Bool × List String :=
  match determineSwapType req with
  | .error e => (some false, ["Liquidity check failed: " ++ e])
  | .ok st =>
    match determineProviderCategory st req with
    | .error e => (some false, ["Liquidity check failed: " ++ e])
    | .ok cat =>
      if cat = .evmAggregators then
        match gmq with
        | .error e => (some false, ["Liquidity check failed: " ++ e])
        | .ok quotes =>
          let liquid : Bool :=
            match quotes with
            | [] => false
            | q :: _ => jsGtB (jsParseFloat q.quote.buyAmount) (some 0)
          if liquid then (some true, [])
          else (some false, ["No liquidity available for requested swap"])
      else (some true, ["Liquidity check stubbed for non-EVM ecosystem"])

/-- Probe 3: approval.  Native ETH needs none; an undeterminable
spender records the `null` outcome; otherwise the approval status
decides; any throw records `false`. -/
def probeApproval (req : UniversalSwapRequest)
    (spenderRes : Except String String) (statusRes : Except String Bool) :
    Option Bool × List String :=
  if req.sellToken.chain.ecosystem = .evm then
    if lowerStr req.sellToken.address = "0xeeeeeeeeeeeeeeeeeeeeeeeeeeeeeeeeeeeeeeee" then
      (some false, [])
    else
      match spenderRes with
      | .error e => (some false, ["Approval check failed: " ++ e])
      | .ok spender =>
        if spender = "" then
          (none, ["Approval check skipped: unable to determine spender address"])
        else
          match statusRes with
          | .error e => (some false, ["Approval check failed: " ++ e])
          | .ok needed =>
            (some needed, if needed then ["Token approval required for swap"] else [])
  else (some false, [])

/-- Probe 4: wallet balance, compared as big integers. -/
def probeBalance (req : UniversalSwapRequest)
    (balanceRes : Except String String) : Option Bool × List String :=
  if req.sellToken.chain.ecosystem = .evm then
    match balanceRes with
    | .error e => (some false, ["Wallet balance check failed: " ++ e])
    | .ok bal =>
      match strToNat? bal, strToNat? req.sellAmount with
      | some b, some a =>
        if a ≤ b then (some true, [])
        else (some false, ["Insufficient wallet balance for swap"])
      | _, _ =>
        (some false, ["Wallet balance check failed: Cannot convert to a BigInt"])
  else (some true, [])

/-- Probe 5: every registered EVM provider must currently be healthy. -/
def probeHealth (req : UniversalSwapRequest)
    (healthRes : Except String (List HealthStatus)) : Option Bool × List String :=
  if req.sellToken.chain.ecosystem = .evm then
    match healthRes with
    | .error e => (some false, ["Provider health check failed: " ++ e])
    | .ok hs =>
      if hs.all (fun h => h = .healthy) then (some true, [])
      else (some false, ["Swap provider is currently unhealthy"])
  else (some true, [])

/-- Source `universalPreCheck`: the five probes in sequence; warnings
accumulate in probe order; no probe aborts the others. -/
def universalPreCheck (req : UniversalSwapRequest) (env : PreCheckEnv) :
    PreCheckResult :=
  let p1 := probeParameters req env.registry
  let p2 := probeLiquidity req env.getMultipleQuotes
  let p3 := probeApproval req env.getSpenderForSwap env.approvalStatusNeeded
  let p4 := probeBalance req env.balance
  let p5 := probeHealth req env.providersHealthEvm
  ⟨p1.1, p2.1, p3.1, p4.1, p5.1, p1.2 ++ p2.2 ++ p3.2 ++ p4.2 ++ p5.2⟩

/-! ## Helper lemmas -/

theorem lookup_append_of_none {K V : Type} [BEq K] (l₁ l₂ : List (K × V)) (k : K)
    (h : l₁.lookup k = none) : (l₁ ++ l₂).lookup k = l₂.lookup k := by
  induction l₁ with
  | nil => rfl
  | cons a t ih =>
    rw [List.cons_append]
    rw [List.lookup] at h ⊢
    cases hk : k == a.1 with
    | true => rw [hk] at h; exact absurd h (by simp)
    | false => rw [hk] at h; exact ih h

theorem registerInLegacyMap_evm {P : Type} (name : String) (p : P) (t : RegState P) :
    (registerInLegacyMap name p t).evmAggregators = t.evmAggregators := by
  simp only [registerInLegacyMap]
  split
  · rfl
  · split <;> rfl

/-! ## C2: Permit2 signature splice -/

/-- C2.  The Permit2 splice returns the original payload, then the
32-byte big-endian encoding of the signature byte length, then the
signature; the prefix decodes back to the length, and the total length
is `len(original) + 32 + len(signature)`. -/
theorem appendSignature_splice (d s : List ℕ) (h : s.length < 2 ^ 256) :
    appendSignatureToTxData d s = .ok (d ++ beBytes 32 s.length ++ s) ∧
    (beBytes 32 s.length).length = 32 ∧
    beDecode (beBytes 32 s.length) = s.length ∧
    (d ++ beBytes 32 s.length ++ s).length = d.length + 32 + s.length := by
  have h256 : s.length < 256 ^ 32 := by
    have : (256 : ℕ) ^ 32 = 2 ^ 256 := by norm_num
    omega
  refine ⟨?_, beBytes_length 32 _, beDecode_beBytes 32 _ h256, ?_⟩
  · rw [appendSignatureToTxData, if_pos h]
  · simp [List.length_append, beBytes_length]
    omega

/-- C2 witness: the concrete case of a 2-byte payload `0xabcd` and a
65-byte signature of repeated `0xaa` bytes. -/
theorem appendSignature_splice_witness :
    (List.replicate 65 0xaa : List ℕ).length < 2 ^ 256 ∧
    appendSignatureToTxData [0xab, 0xcd] (List.replicate 65 0xaa) =
      .ok ([0xab, 0xcd] ++ List.replicate 31 0 ++ [0x41] ++ List.replicate 65 0xaa) := by
  constructor
  · decide
  · have h := (appendSignature_splice [0xab, 0xcd] (List.replicate 65 0xaa) (by decide)).1
    rw [h]
    simp only [Except.ok.injEq]
    decide

/-! ## C8: registration idempotence (all four categories) -/

theorem registerEvmAggregator_idem_aux {P : Type} (getName : P → String) (p : P)
    (s : RegState P) :
    registerEvmAggregator getName p (registerEvmAggregator getName p s) =
      registerEvmAggregator getName p s := by
  by_cases h : (s.evmAggregators.lookup (getName p)).isSome
  · simp only [registerEvmAggregator, if_pos h]
  · have h1 : s.evmAggregators.lookup (getName p) = none :=
      Option.not_isSome_iff_eq_none.mp h
    have hst : registerEvmAggregator getName p s =
        registerInLegacyMap (getName p) p
          { s with evmAggregators := s.evmAggregators ++ [(getName p, p)] } := by
      simp only [registerEvmAggregator, if_neg h]
    have hevm : (registerEvmAggregator getName p s).evmAggregators =
        s.evmAggregators ++ [(getName p, p)] := by
      rw [hst, registerInLegacyMap_evm]
    have hlook : ((registerEvmAggregator getName p s).evmAggregators.lookup
        (getName p)).isSome := by
      rw [hevm, lookup_append_of_none _ _ _ h1]
      simp [List.lookup]
    conv_lhs => rw [registerEvmAggregator]
    simp only [if_pos hlook]

theorem registerMetaAggregator_idem_aux {P : Type} (getName : P → String) (p : P)
    (s : RegState P) :
    registerMetaAggregator getName p (registerMetaAggregator getName p s) =
      registerMetaAggregator getName p s := by
  by_cases h : (s.metaAggregators.lookup (getName p)).isSome
  · simp only [registerMetaAggregator, if_pos h]
  · have h1 : s.metaAggregators.lookup (getName p) = none :=
      Option.not_isSome_iff_eq_none.mp h
    have hlook : ((registerMetaAggregator getName p s).metaAggregators.lookup
        (getName p)).isSome := by
      simp only [registerMetaAggregator, if_neg h]
      rw [lookup_append_of_none _ _ _ h1]
      simp [List.lookup]
    conv_lhs => rw [registerMetaAggregator]
    simp only [if_pos hlook]

theorem registerSolanaRouter_idem_aux {P : Type} (getName : P → String) (p : P)
    (s : RegState P) :
    registerSolanaRouter getName p (registerSolanaRouter getName p s) =
      registerSolanaRouter getName p s := by
  by_cases h : (s.solanaRouters.lookup (getName p)).isSome
  · simp only [registerSolanaRouter, if_pos h]
  · have h1 : s.solanaRouters.lookup (getName p) = none :=
      Option.not_isSome_iff_eq_none.mp h
    have hlook : ((registerSolanaRouter getName p s).solanaRouters.lookup
        (getName p)).isSome := by
      simp only [registerSolanaRouter, if_neg h]
      rw [lookup_append_of_none _ _ _ h1]
      simp [List.lookup]
    conv_lhs => rw [registerSolanaRouter]
    simp only [if_pos hlook]

theorem registerNativeRouter_idem_aux {P : Type} (getName : P → String) (p : P)
    (s : RegState P) :
    registerNativeRouter getName p (registerNativeRouter getName p s) =
      registerNativeRouter getName p s := by
  by_cases h : (s.nativeRouters.lookup (getName p)).isSome
  · simp only [registerNativeRouter, if_pos h]
  · have h1 : s.nativeRouters.lookup (getName p) = none :=
      Option.not_isSome_iff_eq_none.mp h
    have hlook : ((registerNativeRouter getName p s).nativeRouters.lookup
        (getName p)).isSome := by
      simp only [registerNativeRouter, if_neg h]
      rw [lookup_append_of_none _ _ _ h1]
      simp [List.lookup]
    conv_lhs => rw [registerNativeRouter]
    simp only [if_pos hlook]

/-- C8.  Registration is idempotent in every category: registering the
same provider name a second time under the EVM, meta, Solana or native
category finds the name already present, skips the duplicate, and
leaves the registry state (all per-category maps and the legacy map)
unchanged, so register twice equals register once. -/
theorem register_same_name_idem {P : Type} (getName : P → String) (p : P)
    (s : RegState P) :
    registerEvmAggregator getName p (registerEvmAggregator getName p s) =
      registerEvmAggregator getName p s ∧
    registerMetaAggregator getName p (registerMetaAggregator getName p s) =
      registerMetaAggregator getName p s ∧
    registerSolanaRouter getName p (registerSolanaRouter getName p s) =
      registerSolanaRouter getName p s ∧
    registerNativeRouter getName p (registerNativeRouter getName p s) =
      registerNativeRouter getName p s :=
  ⟨registerEvmAggregator_idem_aux getName p s,
   registerMetaAggregator_idem_aux getName p s,
   registerSolanaRouter_idem_aux getName p s,
   registerNativeRouter_idem_aux getName p s⟩

/-! ## C6: swap-type classification round trip -/

theorem deriveSwapType_withSwapType (req : UniversalSwapRequest)
    (st : Option SwapType) :
    deriveSwapType (withSwapType req st) = deriveSwapType req := rfl

/-- Source `determineSwapType` always agrees with the override-free branch
logic: a consistent override is returned unchanged (and equals it), an
inconsistent one falls through to re-derivation. -/
theorem determineSwapType_eq_derive (req : UniversalSwapRequest) :
    determineSwapType req = deriveSwapType req := by
  rw [determineSwapType]
  cases hsw : req.swapType with
  | none => rfl
  | some st =>
    rw [deriveSwapType_withSwapType]
    cases hd : deriveSwapType req with
    | error e => simp [hd]
    | ok d =>
      by_cases hdt : d = st
      · simp [hdt]
      · simp [hdt, hd]

/-- C6.  Classification is idempotent under round trip: feeding the
classified type back as the explicit `swapType` override returns the
same type, and an inconsistent override is ignored in favour of the
re-derived type. -/
theorem determineSwapType_roundTrip (req : UniversalSwapRequest) (t : SwapType)
    (h : determineSwapType req = .ok t) :
    determineSwapType (withSwapType req (some t)) = .ok t ∧
    (∀ st : SwapType, st ≠ t →
      determineSwapType (withSwapType req (some st)) = .ok t) := by
  have hderive : deriveSwapType req = .ok t := by
    rw [← determineSwapType_eq_derive]; exact h
  constructor
  · rw [determineSwapType_eq_derive, deriveSwapType_withSwapType]
    exact hderive
  · intro st _
    rw [determineSwapType_eq_derive, deriveSwapType_withSwapType]
    exact hderive

/-- A same-chain EVM request used as a concrete classification input. -/
def evmReq1 : UniversalSwapRequest :=
  { sellToken := { address := "0xa000000000000000000000000000000000000001",
                   chain := { chainId := some (.num 1), ecosystem := .evm } },
    buyToken := { address := "0xb000000000000000000000000000000000000002",
                  chain := { chainId := some (.num 1), ecosystem := .evm } },
    sellAmount := "1000",
    taker := "0xc000000000000000000000000000000000000003" }

/-- C6 witness: the round trip and the inconsistent-override law at a
concrete same-chain EVM request. -/
theorem determineSwapType_roundTrip_witness :
    determineSwapType (withSwapType evmReq1 (some .onChain)) = .ok .onChain ∧
    determineSwapType (withSwapType evmReq1 (some .crossChain)) = .ok .onChain := by
  have h := determineSwapType_roundTrip evmReq1 .onChain (by rfl)
  exact ⟨h.1, h.2 .crossChain (by decide)⟩

/-! ## C3: chain compatibility -/

/-- Whether the supported-quote cache holds any entry for a chain. -/
def cacheHasChain (cache : SwapCache) (chain : ChainInfo) : Bool :=
  match chain.chainId with
  | some v =>
    (match toNumber v with
     | some n => (List.lookup n cache).isSome
     | none => false)
  | none => false

/-- From the claim's words: chain compatibility should hold when both
ecosystems are supported and, per chain, either a registered adapter
claims the chain, or the supported-quote cache has an entry for it, or
the registry is still empty (bootstrap). -/
def claimChainSupported (registry : List RoutingProvider) (cache : SwapCache)
    (chain : ChainInfo) : Bool :=
  registry.isEmpty ||
  registry.any (fun p => p.supportsChain
    (match chain.chainId with | some v => toNumber v | none => none)) ||
  cacheHasChain cache chain

/-- From the claim's words: the full chain-compatibility predicate. -/
def claimChainCompatible (registry : List RoutingProvider) (cache : SwapCache)
    (req : UniversalSwapRequest) : Bool :=
  isSupportedEcosystem req.sellToken.chain.ecosystem &&
  isSupportedEcosystem req.buyToken.chain.ecosystem &&
  claimChainSupported registry cache req.sellToken.chain &&
  claimChainSupported registry cache req.buyToken.chain

/-- A registered provider that claims no chain at all. -/
def providerNone : RoutingProvider := ⟨fun _ => false⟩

/-- A cache holding an entry for chain 1. -/
def cacheChain1 : SwapCache := [(1, {})]

/-- C3: with one registered adapter that supports no chain and a
supported-quote cache entry for chain 1, the claimed predicate is true
but `validateChainCompatibility` returns false — despite its comment
("check cache first, then fallback"), the code never consults the
cache. -/
theorem validateChainCompatibility_cache_counterexample :
    validateChainCompatibility [providerNone] evmReq1 = false ∧
    claimChainCompatible [providerNone] cacheChain1 evmReq1 = true := by
  constructor
  · rfl
  · rfl

/-- The corrected per-chain support predicate: a present, truthy chain
id, and either an empty registry (bootstrap) or some adapter claiming
the chain; the supported-quote cache plays no part. -/
def amendedChainSupported (registry : List RoutingProvider) (chain : ChainInfo) :
    Bool :=
  match chain.chainId with
  | none => false
  | some v =>
    chainIdTruthy v &&
    (registry.isEmpty || registry.any (fun p => p.supportsChain (toNumber v)))

/-- The corrected chain-compatibility predicate. -/
def amendedChainCompatible (registry : List RoutingProvider)
    (req : UniversalSwapRequest) : Bool :=
  isSupportedEcosystem req.sellToken.chain.ecosystem &&
  isSupportedEcosystem req.buyToken.chain.ecosystem &&
  amendedChainSupported registry req.sellToken.chain &&
  amendedChainSupported registry req.buyToken.chain

theorem isChainSupportedReg_eq_amended (registry : List RoutingProvider)
    (c : ChainInfo) :
    isChainSupportedReg registry c = amendedChainSupported registry c := by
  rw [isChainSupportedReg, amendedChainSupported]
  cases c.chainId with
  | none => rfl
  | some v =>
    dsimp only
    cases htb : chainIdTruthy v <;> cases hrb : registry.isEmpty <;>
      simp [htb, hrb]

/-- C3 (amended).  `validateChainCompatibility` is equivalent to: both
ecosystems supported, and each chain has a present truthy id and is
either claimed by a registered adapter or the registry is empty; the
supported-quote cache is not consulted. -/
theorem validateChainCompatibility_eq_amended (registry : List RoutingProvider)
    (req : UniversalSwapRequest) :
    validateChainCompatibility registry req = amendedChainCompatible registry req := by
  rw [validateChainCompatibility, amendedChainCompatible,
      isChainSupportedReg_eq_amended, isChainSupportedReg_eq_amended]
  cases hA : isSupportedEcosystem req.sellToken.chain.ecosystem <;>
    cases hB : isSupportedEcosystem req.buyToken.chain.ecosystem <;>
    simp

/-! ## C10: approval status without an amount -/

/-- C10.  For a valid non-native request without an amount argument,
`getApprovalStatus` reports `isApprovalNeeded` exactly when the current
ERC-20 allowance is zero; any positive allowance reports `false`. -/
theorem getApprovalStatus_noAmount_zero (chainId : ℤ)
    (tokenAddress owner spender al ti : String) (n : ℕ) (env : ApprovalEnv)
    (hc : 0 < chainId)
    (ht0 : tokenAddress ≠ "") (ht : env.isAddr tokenAddress = true)
    (ho0 : owner ≠ "") (ho : env.isAddr owner = true)
    (hs0 : spender ≠ "") (hs : env.isAddr spender = true)
    (hnn : isNativeToken tokenAddress = false)
    (ha : env.getAllowance = .ok al) (hti : env.getTokenInfo = .ok ti)
    (hal : strToNat? al = some n) :
    ∃ r, getApprovalStatus chainId tokenAddress owner spender none env = .ok r ∧
      r.isApprovalNeeded = decide (n = 0) ∧
      (0 < n → r.isApprovalNeeded = false) := by
  rw [getApprovalStatus, if_neg (by omega), if_neg ht0, if_neg (by simp [ht]),
      if_neg ho0, if_neg (by simp [ho]), if_neg hs0, if_neg (by simp [hs]),
      if_neg (by simp [hnn]), ha, hti]
  simp only [hal]
  refine ⟨_, rfl, rfl, ?_⟩
  intro hp
  simp [Nat.pos_iff_ne_zero.mp hp]

/-- C10 witness: a positive allowance of 5 with no amount argument
reports that no approval is needed. -/
theorem getApprovalStatus_noAmount_zero_witness :
    ∃ r, getApprovalStatus 1 "0xa1" "0xb2" "0xc3" none
        ⟨fun _ => true, .ok "5", .ok "info", .ok false⟩ = .ok r ∧
      r.isApprovalNeeded = decide ((5:ℕ) = 0) ∧
      (0 < 5 → r.isApprovalNeeded = false) :=
  getApprovalStatus_noAmount_zero 1 "0xa1" "0xb2" "0xc3" "5" "info" 5
    ⟨fun _ => true, .ok "5", .ok "info", .ok false⟩
    (by norm_num) (by decide) (by rfl) (by decide) (by rfl) (by decide) (by rfl)
    (by rfl) (by rfl) (by rfl) (by rfl)

/-! ## C9: pre-check probes are independent -/

/-- C9.  `universalPreCheck` always returns all five probe outcomes:
each outcome is a function of that probe's own inputs alone, the
warnings are the concatenation of the per-probe warnings in probe
order, a failing quote fan-out records a `false` liquidity outcome plus
its warning without stopping later probes, and an undeterminable
spender records the `null` approval outcome plus its warning. -/
theorem universalPreCheck_probes (req : UniversalSwapRequest) (env : PreCheckEnv) :
    (universalPreCheck req env).parametersValid = (probeParameters req env.registry).1 ∧
    (universalPreCheck req env).liquidityAvailable =
      (probeLiquidity req env.getMultipleQuotes).1 ∧
    (universalPreCheck req env).approvalRequired =
      (probeApproval req env.getSpenderForSwap env.approvalStatusNeeded).1 ∧
    (universalPreCheck req env).sufficientBalance = (probeBalance req env.balance).1 ∧
    (universalPreCheck req env).providerHealthy =
      (probeHealth req env.providersHealthEvm).1 ∧
    (universalPreCheck req env).warnings =
      (probeParameters req env.registry).2 ++
      (probeLiquidity req env.getMultipleQuotes).2 ++
      (probeApproval req env.getSpenderForSwap env.approvalStatusNeeded).2 ++
      (probeBalance req env.balance).2 ++
      (probeHealth req env.providersHealthEvm).2 ∧
    (∀ e st, env.getMultipleQuotes = .error e →
      determineSwapType req = .ok st →
      determineProviderCategory st req = .ok .evmAggregators →
      (universalPreCheck req env).liquidityAvailable = some false ∧
      ("Liquidity check failed: " ++ e) ∈ (universalPreCheck req env).warnings) ∧
    (req.sellToken.chain.ecosystem = .evm →
      lowerStr req.sellToken.address ≠ "0xeeeeeeeeeeeeeeeeeeeeeeeeeeeeeeeeeeeeeeee" →
      env.getSpenderForSwap = .ok "" →
      (universalPreCheck req env).approvalRequired = none ∧
      "Approval check skipped: unable to determine spender address" ∈
        (universalPreCheck req env).warnings) := by
  refine ⟨rfl, rfl, rfl, rfl, rfl, rfl, ?_, ?_⟩
  · intro e st he hst hcat
    have hliq : probeLiquidity req env.getMultipleQuotes =
        (some false, ["Liquidity check failed: " ++ e]) := by
      simp [probeLiquidity.eq_def, hst, hcat, he]
    constructor
    · show (probeLiquidity req env.getMultipleQuotes).1 = some false
      rw [hliq]
    · show _ ∈ (probeParameters req env.registry).2 ++
        (probeLiquidity req env.getMultipleQuotes).2 ++ _ ++ _ ++ _
      rw [hliq]
      simp
  · intro heco hnn hsp
    have happ : probeApproval req env.getSpenderForSwap env.approvalStatusNeeded =
        (none, ["Approval check skipped: unable to determine spender address"]) := by
      simp [probeApproval.eq_def, heco, hnn, hsp]
    constructor
    · show (probeApproval req env.getSpenderForSwap env.approvalStatusNeeded).1 = none
      rw [happ]
    · show _ ∈ _ ++ _ ++
        (probeApproval req env.getSpenderForSwap env.approvalStatusNeeded).2 ++ _ ++ _
      rw [happ]
      simp

/-- C9 witness: a failing fan-out and an empty spender on a concrete
EVM request leave the other probes intact and record the two warnings. -/
theorem universalPreCheck_probes_witness :
    ((universalPreCheck evmReq1
        { getMultipleQuotes := .error "boom",
          getSpenderForSwap := .ok "" }).liquidityAvailable = some false ∧
      ("Liquidity check failed: " ++ "boom") ∈
        (universalPreCheck evmReq1
          { getMultipleQuotes := .error "boom",
            getSpenderForSwap := .ok "" }).warnings) ∧
    ((universalPreCheck evmReq1
        { getMultipleQuotes := .error "boom",
          getSpenderForSwap := .ok "" }).approvalRequired = none ∧
      "Approval check skipped: unable to determine spender address" ∈
        (universalPreCheck evmReq1
          { getMultipleQuotes := .error "boom",
            getSpenderForSwap := .ok "" }).warnings) := by
  have h := universalPreCheck_probes evmReq1
    { getMultipleQuotes := .error "boom", getSpenderForSwap := .ok "" }
  exact ⟨h.2.2.2.2.2.2.1 "boom" .onChain (by rfl) (by rfl) (by rfl),
         h.2.2.2.2.2.2.2 (by rfl) (by decide) (by rfl)⟩

/-! ## C4: the liquidity probe reads only the first quote -/

/-- From the claim's words: liquidity should hold when at least one
gathered quote has a positive `buyAmount` (unbounded-integer reading of
the decimal string). -/
def claimLiquidityAny (qs : List AggregatorQuote) : Bool :=
  qs.any (fun q => decide (0 < (strToNat? q.quote.buyAmount).getD 0))

/-- A quote with zero output. -/
def zeroQuote : AggregatorQuote := ⟨.ZEROX, { buyAmount := "0" }⟩

/-- A quote with positive output. -/
def goodQuote : AggregatorQuote := ⟨.ODOS, { buyAmount := "100" }⟩

/-- C4 counterexample: with quotes `[0, 100]` the claimed predicate is
liquid, but the probe inspects only the first quote and reports no
liquidity. -/
theorem preCheck_liquidity_first_counterexample :
    (universalPreCheck evmReq1
      { getMultipleQuotes := .ok [zeroQuote, goodQuote] }).liquidityAvailable =
      some false ∧
    claimLiquidityAny [zeroQuote, goodQuote] = true := by
  constructor
  · show (probeLiquidity evmReq1 (.ok [zeroQuote, goodQuote])).1 = some false
    have hgt : jsGtB (jsParseFloat zeroQuote.quote.buyAmount) (some 0) = false := by
      have h0 : jsParseFloat zeroQuote.quote.buyAmount = some ((0 : ℕ) : ℚ) :=
        jsParseFloat_exact _ 0 (by decide) (by norm_num)
      rw [h0]
      simp [jsGtB]
    simp [probeLiquidity.eq_def,
          show determineSwapType evmReq1 = .ok .onChain from rfl,
          show determineProviderCategory .onChain evmReq1 = .ok .evmAggregators from rfl,
          hgt]
  · decide

/-- C4 (amended).  For a request routed to the EVM-aggregator category,
the liquidity probe reports liquid exactly when the fan-out result is
non-empty and the first quote's `buyAmount`, read through `parseFloat`,
is positive. -/
theorem preCheck_liquidity_first_quote (req : UniversalSwapRequest)
    (env : PreCheckEnv) (st : SwapType) (qs : List AggregatorQuote)
    (hst : determineSwapType req = .ok st)
    (hcat : determineProviderCategory st req = .ok .evmAggregators)
    (hq : env.getMultipleQuotes = .ok qs) :
    (universalPreCheck req env).liquidityAvailable =
      some (match qs with
            | [] => false
            | q :: _ => jsGtB (jsParseFloat q.quote.buyAmount) (some 0)) := by
  show (probeLiquidity req env.getMultipleQuotes).1 = _
  simp only [probeLiquidity.eq_def, hst, hcat, hq]
  cases qs with
  | nil => simp
  | cons q rest =>
    cases hgt : jsGtB (jsParseFloat q.quote.buyAmount) (some 0) <;> simp [hgt]

/-- C4 witness: a single positive quote reports liquidity. -/
theorem preCheck_liquidity_first_quote_witness :
    (universalPreCheck evmReq1
      { getMultipleQuotes := .ok [goodQuote] }).liquidityAvailable =
      some (match [goodQuote] with
            | [] => false
            | q :: _ => jsGtB (jsParseFloat q.quote.buyAmount) (some 0)) :=
  preCheck_liquidity_first_quote evmReq1
    { getMultipleQuotes := .ok [goodQuote] } .onChain [goodQuote]
    (by rfl) (by rfl) (by rfl)

/-! ## C7: provider score -/

/-- From the claim's words: base 100; plus 50 if healthy; plus
`max 0 (100 - latency)` unconditionally; minus `100 * errorRate`
unconditionally; minus 100 if unhealthy; plus the four nudges; clamped
to be non-negative. -/
def claimProviderScore (status : HealthStatus) (latency errorRate : ℚ)
    (providerName : String) (request : SwapRequest) : ℚ :=
  let pn := lowerStr providerName
  max 0 (100
    + (if status = .healthy then 50 else 0)
    + max 0 (100 - latency)
    - 100 * errorRate
    + (if status = .unhealthy then -100 else 0)
    + (if request.chainId = 1 ∧ pn = "0x" then 20 else 0)
    + (if request.chainId = 137 ∧ pn = "odos" then 15 else 0)
    + (if 10 ^ 21 < (strToNat? request.sellAmount).getD 0 ∧ pn = "0x" then 10 else 0)
    + (if request.approvalStrategy = some .permit2 ∧ pn = "0x" then 25 else 0))

/-- C7 counterexample: an unhealthy provider with a 10 ms cached
latency and zero error rate scores 0 in the code (the latency bonus is
granted only to healthy providers), while the claimed formula yields
90. -/
theorem providerScore_counterexample :
    calculateProviderScore ⟨"p", .unhealthy, some 10, 0, some 0⟩ "other"
      { chainId := 2 } = 0 ∧
    claimProviderScore .unhealthy 10 0 "other" { chainId := 2 } = 90 := by
  have hlow : lowerStr "other" = "other" := by decide
  have hempty : strToNat? "" = none := by decide
  have hx : ¬ (("other" : String) = "0x") := by decide
  have hod : ¬ (("other" : String) = "odos") := by decide
  have hst : ¬ (HealthStatus.unhealthy = HealthStatus.healthy) := by decide
  have hps : ¬ ((none : Option ApprovalStrategy) = some ApprovalStrategy.permit2) := by
    decide
  constructor
  · norm_num [calculateProviderScore, hlow, hx, hod, hst, hps]
  · norm_num [claimProviderScore, hlow, hempty, hx, hod, hst, hps]

/-- The corrected score formula: the latency bonus (granted only for a
present, nonzero cached latency) and the error-rate penalty apply only
to healthy providers; every non-healthy status (degraded included)
takes the flat −100 instead of the +50. -/
def amendedProviderScore (health : ProviderHealth) (providerName : String)
    (request : SwapRequest) : ℚ :=
  let pn := lowerStr providerName
  let latencyBonus : ℚ :=
    match health.latency with
    | some l => if l ≠ 0 then max 0 (100 - l) else 0
    | none => 0
  let errorPenalty : ℚ :=
    match health.errorRate with
    | some e => e * 100
    | none => 0
  max 0 (100
    + (if health.status = .healthy then 50 + latencyBonus - errorPenalty else -100)
    + (if request.chainId = 1 ∧ pn = "0x" then 20 else 0)
    + (if request.chainId = 137 ∧ pn = "odos" then 15 else 0)
    + (if request.sellAmount ≠ "" ∧
          jsGtB (jsParseFloat request.sellAmount) (some ((10 : ℚ) ^ 21)) ∧ pn = "0x"
       then 10 else 0)
    + (if request.approvalStrategy = some .permit2 ∧ pn = "0x" then 25 else 0))

theorem health_part_eq (st : HealthStatus) (LB EP : ℚ) :
    (if st = .healthy then 100 + 50 + LB - EP else 100 - 100) =
      100 + (if st = .healthy then 50 + LB - EP else -100) := by
  by_cases h : st = .healthy <;> simp [h] <;> ring

theorem chain_nudge_eq (s : ℚ) (cid : ℕ) (pn : String) :
    (if cid = 1 then (if pn = "0x" then s + 20 else s)
     else if cid = 137 then (if pn = "odos" then s + 15 else s) else s) =
      s + (if cid = 1 ∧ pn = "0x" then 20 else 0)
        + (if cid = 137 ∧ pn = "odos" then 15 else 0) := by
  by_cases h1 : cid = 1 <;> by_cases h2 : cid = 137 <;>
    by_cases h3 : pn = "0x" <;> by_cases h4 : pn = "odos" <;>
    simp [h1, h2, h3, h4]

theorem size_nudge_eq (s : ℚ) (A B : Prop) [Decidable A] [Decidable B] :
    (if A then (if B then s + 10 else s) else s) =
      s + (if A ∧ B then 10 else 0) := by
  by_cases hA : A <;> by_cases hB : B <;> simp [hA, hB]

theorem strat_nudge_eq (s : ℚ) (C : Prop) [Decidable C] :
    (if C then s + 25 else s) = s + (if C then 25 else 0) := by
  by_cases hC : C <;> simp [hC]

/-- C7 (amended).  `calculateProviderScore` computes exactly the
corrected formula. -/
theorem providerScore_eq_amended (h : ProviderHealth) (n : String)
    (r : SwapRequest) :
    calculateProviderScore h n r = amendedProviderScore h n r := by
  simp only [calculateProviderScore, amendedProviderScore]
  rw [strat_nudge_eq, size_nudge_eq, chain_nudge_eq, health_part_eq]

/-! ## C1: best-quote selection -/

/-- The unbounded-integer value of a quote's `buyAmount` decimal string
(0 for a non-decimal string). -/
def exactBuyAmount (e : AggregatorQuote) : ℕ :=
  (strToNat? e.quote.buyAmount).getD 0

/-- From the claim's words: the selection step under exact unbounded
integer comparison. -/
def pickBetterExact (best current : AggregatorQuote) : AggregatorQuote :=
  if exactBuyAmount best < exactBuyAmount current then current else best

/-- From the claim's words: argmax of `buyAmount` under exact integer
comparison, first occurrence on ties. -/
def specBestExact (qs : List AggregatorQuote) : Option AggregatorQuote :=
  match qs with
  | [] => none
  | q :: rest => some (rest.foldl pickBetterExact q)

/-- A quote whose `buyAmount` is a decimal string with value below
`2 ^ 53` (exactly representable in binary64). -/
def smallDecimal (e : AggregatorQuote) : Prop :=
  ∃ n, strToNat? e.quote.buyAmount = some n ∧ n < 2 ^ 53

theorem pickBetter_eq_exact (b c : AggregatorQuote)
    (hb : smallDecimal b) (hc : smallDecimal c) :
    pickBetter b c = pickBetterExact b c := by
  obtain ⟨nb, hb1, hb2⟩ := hb
  obtain ⟨nc, hc1, hc2⟩ := hc
  rw [pickBetter, pickBetterExact,
      jsParseFloat_exact _ _ hb1 hb2, jsParseFloat_exact _ _ hc1 hc2]
  simp [jsGtB, exactBuyAmount, hb1, hc1, Nat.cast_lt]

theorem smallDecimal_pickBetterExact (b c : AggregatorQuote)
    (hb : smallDecimal b) (hc : smallDecimal c) :
    smallDecimal (pickBetterExact b c) := by
  rw [pickBetterExact]
  split
  · exact hc
  · exact hb

theorem foldl_pickBetter_eq_exact (l : List AggregatorQuote) :
    ∀ acc, smallDecimal acc → (∀ e ∈ l, smallDecimal e) →
      l.foldl pickBetter acc = l.foldl pickBetterExact acc := by
  induction l with
  | nil => intro acc _ _; rfl
  | cons c t ih =>
    intro acc hacc hl
    rw [List.foldl_cons, List.foldl_cons,
        pickBetter_eq_exact acc c hacc (hl c (List.mem_cons_self c t))]
    exact ih _
      (smallDecimal_pickBetterExact acc c hacc (hl c (List.mem_cons_self c t)))
      (fun e he => hl e (List.mem_cons_of_mem _ he))

/-- C1 (amended).  When every gathered `buyAmount` is a decimal string
below `2 ^ 53`, the `parseFloat`-based selection of `getBestQuote` and
the `bestAggregator` of `compareQuotes` agree with the exact
unbounded-integer argmax (first occurrence on ties). -/
theorem getBestQuote_exact_of_small (qs : List AggregatorQuote)
    (h : ∀ e ∈ qs, smallDecimal e) :
    getBestQuote qs = specBestExact qs ∧
    (compareQuotes qs).toOption.map (fun r => r.bestAggregator) =
      (specBestExact qs).map (fun e => e.aggregator) := by
  cases qs with
  | nil => exact ⟨rfl, rfl⟩
  | cons q rest =>
    have hfold : rest.foldl pickBetter q = rest.foldl pickBetterExact q :=
      foldl_pickBetter_eq_exact rest q (h q (by simp))
        (fun e he => h e (by simp [he]))
    constructor
    · rw [getBestQuote, specBestExact, hfold]
    · simp only [compareQuotes, specBestExact, hfold, Except.toOption,
        Option.map_some']

/-- C1 witness: a singleton list satisfies the smallness bound and the
two selections agree on it. -/
theorem getBestQuote_exact_of_small_witness :
    getBestQuote [goodQuote] = specBestExact [goodQuote] ∧
    (compareQuotes [goodQuote]).toOption.map (fun r => r.bestAggregator) =
      (specBestExact [goodQuote]).map (fun e => e.aggregator) :=
  getBestQuote_exact_of_small [goodQuote] (fun e he => by
    have : e = goodQuote := by simpa using he
    rw [this]
    exact ⟨100, by decide, by norm_num⟩)

/-- The quote with `buyAmount` `2 ^ 53`, listed first. -/
def capQuote : AggregatorQuote := ⟨.ZEROX, { buyAmount := "9007199254740992" }⟩

/-- The quote with `buyAmount` `2 ^ 53 + 1`, listed second. -/
def capQuote2 : AggregatorQuote := ⟨.ODOS, { buyAmount := "9007199254740993" }⟩

theorem roundQ_cap : roundQ ((9007199254740992 : ℕ) : ℚ) = 9007199254740992 := by
  rw [roundQ_natCast_pos _ (by norm_num)]
  have hf : ratFlog2n 9007199254740992 1 = (53, 0) := by
    norm_num [ratFlog2n, Nat.log2]
  simp only [roundPosNat, hf]
  norm_num

theorem roundQ_cap2 : roundQ ((9007199254740993 : ℕ) : ℚ) = 9007199254740992 := by
  rw [roundQ_natCast_pos _ (by norm_num)]
  have hf : ratFlog2n 9007199254740993 1 = (53, 0) := by
    norm_num [ratFlog2n, Nat.log2]
  simp only [roundPosNat, hf]
  norm_num

/-- C1 counterexample: `buyAmount` strings `2 ^ 53` and `2 ^ 53 + 1`
both parse to the double `2 ^ 53`, so the code keeps the first quote
(ZEROX) while the exact unbounded-integer argmax is the second (ODOS). -/
theorem getBestQuote_float_counterexample :
    (getBestQuote [capQuote, capQuote2]).map (fun e => e.aggregator) =
      some AggregatorType.ZEROX ∧
    (specBestExact [capQuote, capQuote2]).map (fun e => e.aggregator) =
      some AggregatorType.ODOS := by
  constructor
  · have h1 : jsParseFloat capQuote.quote.buyAmount =
        some ((9007199254740992 : ℕ) : ℚ) := by
      have hs : strToNat? "9007199254740992" = some 9007199254740992 := by decide
      show jsParseFloat "9007199254740992" = _
      simp only [jsParseFloat, hs, roundQ_cap]
      norm_num
    have h2 : jsParseFloat capQuote2.quote.buyAmount =
        some ((9007199254740992 : ℕ) : ℚ) := by
      have hs : strToNat? "9007199254740993" = some 9007199254740993 := by decide
      show jsParseFloat "9007199254740993" = _
      simp only [jsParseFloat, hs, roundQ_cap2]
      norm_num
    simp only [getBestQuote, List.foldl_cons, List.foldl_nil, pickBetter,
      h1, h2, jsGtB]
    norm_num
    rfl
  · decide

/-! ## C5: price difference -/

/-- The parsed (`parseFloat`) value of a quote's `buyAmount`, defaulting
to 0 for NaN. -/
def vq (e : AggregatorQuote) : ℚ := (jsParseFloat e.quote.buyAmount).getD 0

theorem foldl_pickBetter_parsed (l : List AggregatorQuote) :
    ∀ acc, (jsParseFloat acc.quote.buyAmount).isSome →
      (∀ e ∈ l, (jsParseFloat e.quote.buyAmount).isSome) →
      jsParseFloat ((l.foldl pickBetter acc).quote.buyAmount) =
        some (l.foldl (fun m e => max m (vq e)) (vq acc)) := by
  induction l with
  | nil =>
    intro acc hacc _
    obtain ⟨x, hx⟩ := Option.isSome_iff_exists.mp hacc
    simp [List.foldl_nil, vq, hx]
  | cons c t ih =>
    intro acc hacc hl
    have hc := hl c (List.mem_cons_self c t)
    obtain ⟨xa, hxa⟩ := Option.isSome_iff_exists.mp hacc
    obtain ⟨xc, hxc⟩ := Option.isSome_iff_exists.mp hc
    have hva : vq acc = xa := by simp [vq, hxa]
    have hvc : vq c = xc := by simp [vq, hxc]
    have hstep : pickBetter acc c = if xa < xc then c else acc := by
      simp only [pickBetter, hxc, hxa, jsGtB, decide_eq_true_eq]
    rw [List.foldl_cons, List.foldl_cons, hstep]
    by_cases hlt : xa < xc
    · rw [if_pos hlt, ih c hc (fun e he => hl e (List.mem_cons_of_mem _ he))]
      have hmx : max (vq acc) (vq c) = vq c := by
        rw [hva, hvc]; exact max_eq_right hlt.le
      rw [hmx]
    · rw [if_neg hlt, ih acc hacc (fun e he => hl e (List.mem_cons_of_mem _ he))]
      have hmx : max (vq acc) (vq c) = vq acc := by
        rw [hva, hvc]; exact max_eq_left (le_of_not_lt hlt)
      rw [hmx]

theorem foldl_pickWorse_parsed (l : List AggregatorQuote) :
    ∀ acc, (jsParseFloat acc.quote.buyAmount).isSome →
      (∀ e ∈ l, (jsParseFloat e.quote.buyAmount).isSome) →
      jsParseFloat ((l.foldl pickWorse acc).quote.buyAmount) =
        some (l.foldl (fun m e => min m (vq e)) (vq acc)) := by
  induction l with
  | nil =>
    intro acc hacc _
    obtain ⟨x, hx⟩ := Option.isSome_iff_exists.mp hacc
    simp [List.foldl_nil, vq, hx]
  | cons c t ih =>
    intro acc hacc hl
    have hc := hl c (List.mem_cons_self c t)
    obtain ⟨xa, hxa⟩ := Option.isSome_iff_exists.mp hacc
    obtain ⟨xc, hxc⟩ := Option.isSome_iff_exists.mp hc
    have hva : vq acc = xa := by simp [vq, hxa]
    have hvc : vq c = xc := by simp [vq, hxc]
    have hstep : pickWorse acc c = if xc < xa then c else acc := by
      simp only [pickWorse, hxc, hxa, jsLtB, decide_eq_true_eq]
    rw [List.foldl_cons, List.foldl_cons, hstep]
    by_cases hlt : xc < xa
    · rw [if_pos hlt, ih c hc (fun e he => hl e (List.mem_cons_of_mem _ he))]
      have hmn : min (vq acc) (vq c) = vq c := by
        rw [hva, hvc]; exact min_eq_right hlt.le
      rw [hmn]
    · rw [if_neg hlt, ih acc hacc (fun e he => hl e (List.mem_cons_of_mem _ he))]
      have hmn : min (vq acc) (vq c) = vq acc := by
        rw [hva, hvc]; exact min_eq_left (le_of_not_lt hlt)
      rw [hmn]

/-- C5 (amended).  When every gathered `buyAmount` parses,
`compareQuotes` renders `priceDifference` as the binary64 evaluation of
`(best - worst) / worst * 100` over the maximum and minimum parsed
values, formatted by `toFixed(2)` with a `%` suffix. -/
theorem compareQuotes_price_formula (q0 : AggregatorQuote)
    (qs : List AggregatorQuote)
    (h : ∀ e ∈ q0 :: qs, (jsParseFloat e.quote.buyAmount).isSome) :
    ∃ r, compareQuotes (q0 :: qs) = .ok r ∧
      r.bestAggregator = (qs.foldl pickBetter q0).aggregator ∧
      r.priceDifference =
        jsToFixed2 (jsMul (jsDiv
          (jsSub (some (qs.foldl (fun m e => max m (vq e)) (vq q0)))
                 (some (qs.foldl (fun m e => min m (vq e)) (vq q0))))
          (some (qs.foldl (fun m e => min m (vq e)) (vq q0)))) (some 100)) ++ "%" := by
  have hb := foldl_pickBetter_parsed qs q0 (h q0 (by simp))
    (fun e he => h e (by simp [he]))
  have hw := foldl_pickWorse_parsed qs q0 (h q0 (by simp))
    (fun e he => h e (by simp [he]))
  refine ⟨_, rfl, rfl, ?_⟩
  show jsToFixed2 (jsMul (jsDiv
      (jsSub (jsParseFloat ((qs.foldl pickBetter q0).quote.buyAmount))
             (jsParseFloat ((qs.foldl pickWorse q0).quote.buyAmount)))
      (jsParseFloat ((qs.foldl pickWorse q0).quote.buyAmount))) (some 100)) ++ "%" = _
  rw [hb, hw]

/-- C5 witness: the formula instantiated on two quotes that parse. -/
theorem compareQuotes_price_formula_witness :
    ∃ r, compareQuotes (goodQuote :: [capQuote]) = .ok r ∧
      r.bestAggregator = ([capQuote].foldl pickBetter goodQuote).aggregator ∧
      r.priceDifference =
        jsToFixed2 (jsMul (jsDiv
          (jsSub (some ([capQuote].foldl (fun m e => max m (vq e)) (vq goodQuote)))
                 (some ([capQuote].foldl (fun m e => min m (vq e)) (vq goodQuote))))
          (some ([capQuote].foldl (fun m e => min m (vq e)) (vq goodQuote))))
          (some 100)) ++ "%" :=
  compareQuotes_price_formula goodQuote [capQuote] (by decide)

/-- C5 counterexample: with a single collected quote the emitted
`priceDifference` is the string `"0.00%"`, not `"0"`. -/
theorem compareQuotes_single_counterexample :
    compareQuotes [goodQuote] = .ok ⟨[goodQuote], .ODOS, "0.00%"⟩ ∧
    ("0.00%" : String) ≠ "0" := by
  constructor
  · have h100 : jsParseFloat goodQuote.quote.buyAmount = some ((100 : ℕ) : ℚ) :=
      jsParseFloat_exact _ 100 (by decide) (by norm_num)
    have hsub : jsSub (some ((100 : ℕ) : ℚ)) (some ((100 : ℕ) : ℚ)) = some 0 := by
      simp only [jsSub]
      rw [show ((100 : ℕ) : ℚ) - ((100 : ℕ) : ℚ) = 0 by norm_num, roundQ_zero]
    have hdiv : jsDiv (some (0 : ℚ)) (some ((100 : ℕ) : ℚ)) = some 0 := by
      simp only [jsDiv]
      rw [if_neg (by norm_num), show (0 : ℚ) / ((100 : ℕ) : ℚ) = 0 by norm_num,
        roundQ_zero]
    have hmul : jsMul (some (0 : ℚ)) (some (100 : ℚ)) = some 0 := by
      simp only [jsMul]
      rw [show (0 : ℚ) * (100 : ℚ) = 0 by norm_num, roundQ_zero]
    have hfix : jsToFixed2 (some (0 : ℚ)) = "0.00" := by
      have h0 : (⌊|(0 : ℚ)| * 100 + 1/2⌋) = 0 := by norm_num
      simp only [jsToFixed2, h0]
      norm_num
      decide
    simp only [compareQuotes, List.foldl_nil, h100, hsub, hdiv, hmul, hfix]
    rfl
  · decide

end SwapAgg
